import Mathlib

/-!
Shallow embedding of the WsprryPi shutdown/reboot watcher scripts
(`src/executables/wspr_watch.py` and `src/executables/shutdown_watch.py`).

The watcher is a linear sequence of OS calls; we embed each function as a
pure Lean function from its explicit inputs (flags, filesystem state,
terminal state, GPIO pin state) to a record of its observable effects
(log entries, spawned commands, filesystem mutations, exit codes).
-/

namespace WsprWatch

/-- Logging severities used by the `shutdown_watch` logger. -/
inductive LogLevel
  | debugL
  | infoL
  | warningL
  | errorL
  | criticalL
deriving DecidableEq

/-- One emitted log record: a severity and a message. -/
structure LogEntry where
  level : LogLevel
  msg : String
deriving DecidableEq

/-- The two fixed semaphore paths the watcher polls:
`STOP_FILE_PATH` (= /var/www/html/wsprrypi/shutdown.semaphore) and
`REBOOT_FILE_PATH` (= /var/www/html/wsprrypi/reboot.semaphore). -/
inductive SemPath
  | stopFile
  | rebootFile
deriving DecidableEq

/-- String form of a semaphore path, as interpolated into log messages. -/
def semPathStr : SemPath → String
  | SemPath.stopFile => "/var/www/html/wsprrypi/shutdown.semaphore"
  | SemPath.rebootFile => "/var/www/html/wsprrypi/reboot.semaphore"

/-- Existence of the two semaphore files; the scripts touch no other paths. -/
structure FsState where
  stopExists : Bool
  rebootExists : Bool
deriving DecidableEq

/-- Observable effects of one call to `initiate_action`. -/
structure ActionResult where
  /-- log records emitted, in order -/
  logs : List LogEntry
  /-- the `command_string` chosen, when the selection step assigns one -/
  commandSelected : Option String
  /-- commands handed to `subprocess.Popen ["sh", "-c", cmd]` -/
  spawned : List String
  /-- whether `stop_button.when_pressed = None` was executed -/
  callbackDisabled : Bool
  /-- filesystem deletions performed by `initiate_action` itself (it does none) -/
  fsDeletes : List SemPath
  /-- value returned, when the function returns normally -/
  ret : Option Nat
  /-- argument of `sys.exit`, when the except branch exits the process -/
  exitCode : Option Int
deriving DecidableEq

/-- The debug-branch message
`"Debug mode active: %s prevented by %s."` of `initiate_action`. -/
def debugPreventedMsg (file_path : Option SemPath) : String :=
  let action :=
    match file_path with
    | some SemPath.stopFile => "Shutdown"
    | some SemPath.rebootFile => "Reboot"
    | none => "Unknown action"
  let source :=
    match file_path with
    | some p => semPathStr p
    | none => "GPIO event"
  "Debug mode active: " ++ action ++ " prevented by " ++ source ++ "."

/-- Warning when both triggers are absent. -/
def noTriggerMsg : String :=
  "No shutdown trigger detected: Both file_path and stop_button are None."

/-- Info logged before the GPIO callback is disabled. -/
def gpioInitiatedMsg : String :=
  "Shutdown initiated by pin GPIO. Disabling callback."

/-- Debug message of the unknown-trigger branch. -/
def unknownTriggerMsg : String :=
  "Actions undefined: Unknown file trigger."

/-- Error for an empty command string. -/
def invalidCommandMsg : String :=
  "Invalid command string. No action taken."

/-- Error logged when `subprocess.Popen` raises. -/
def spawnFailedMsg : String :=
  "Failed to initiate action."

/-- Info logged after the detached process is started. -/
def initiatedMsg (action_string : String) : String :=
  action_string ++ " process initiated."

/-- `wspr_watch.initiate_action(logger, debug, stop_button, file_path)`.

`hasStopButton` stands for `stop_button is not None`; `file_path` is `None`
for a GPIO press or one of the two semaphore paths for a file trigger
(the only values the call sites pass); `popenRaises` tells whether
`subprocess.Popen` raises `OSError`/`subprocess.SubprocessError`. -/
def initiate_action (debug : Bool) (hasStopButton : Bool)
    (file_path : Option SemPath) (popenRaises : Bool) : ActionResult :=
  if debug then
    { logs := [{ level := LogLevel.debugL, msg := debugPreventedMsg file_path }]
      commandSelected := none, spawned := [], callbackDisabled := false
      fsDeletes := [], ret := some 0, exitCode := none }
  else if file_path.isNone && !hasStopButton then
    { logs := [{ level := LogLevel.warningL, msg := noTriggerMsg }]
      commandSelected := none, spawned := [], callbackDisabled := false
      fsDeletes := [], ret := some 0, exitCode := none }
  else
    let btnLogs : List LogEntry :=
      if hasStopButton then [{ level := LogLevel.infoL, msg := gpioInitiatedMsg }] else []
    let cbDisabled := hasStopButton
    match file_path with
    | some p =>
      -- `file_path in (STOP_FILE_PATH, REBOOT_FILE_PATH)` holds
      let command_string := if p = SemPath.stopFile then "shutdown -h now" else "reboot"
      let action_string := if p = SemPath.stopFile then "Shutdown" else "Reboot"
      if command_string = "" then
        -- `if not command_string` guard (dead here: both literals are nonempty)
        { logs := btnLogs ++ [{ level := LogLevel.errorL, msg := invalidCommandMsg }]
          commandSelected := some command_string, spawned := []
          callbackDisabled := cbDisabled, fsDeletes := [], ret := some 1, exitCode := none }
      else if popenRaises then
        { logs := btnLogs ++ [{ level := LogLevel.errorL, msg := spawnFailedMsg }]
          commandSelected := some command_string, spawned := []
          callbackDisabled := cbDisabled, fsDeletes := [], ret := none, exitCode := some 1 }
      else
        { logs := btnLogs ++ [{ level := LogLevel.infoL, msg := initiatedMsg action_string }]
          commandSelected := some command_string
          spawned := ["sleep 1 && " ++ command_string]
          callbackDisabled := cbDisabled, fsDeletes := [], ret := some 0, exitCode := none }
    | none =>
      -- GPIO press reaches the selection step with `file_path = None`:
      -- the `else` branch fires and no command is selected
      { logs := btnLogs ++ [{ level := LogLevel.debugL, msg := unknownTriggerMsg }]
        commandSelected := none, spawned := [], callbackDisabled := cbDisabled
        fsDeletes := [], ret := some 0, exitCode := none }

/-- Info logged by `file_watch` when the shutdown semaphore is found. -/
def shutdownRequestedMsg : String :=
  "Shutdown requested by presence of " ++ semPathStr SemPath.stopFile ++ "."

/-- Info logged by `file_watch` when the reboot semaphore is found. -/
def rebootRequestedMsg : String :=
  "Reboot requested by presence of " ++ semPathStr SemPath.rebootFile ++ "."

/-- Observable effects of one iteration of the `file_watch` polling loop. -/
structure PollResult where
  fs : FsState
  logs : List LogEntry
  /-- semaphore triggers consumed this iteration, in order -/
  triggers : List SemPath
  spawned : List String
  /-- set when a nested `initiate_action` called `sys.exit` -/
  exitCode : Option Int
deriving DecidableEq

/-- One iteration of the `while True` body of `wspr_watch.file_watch`:
check `STOP_FILE_PATH` (unlink before logging and acting), then
`REBOOT_FILE_PATH` likewise, then sleep.  A `sys.exit` from a nested
`initiate_action` aborts the iteration. -/
def file_watch_iter (debug : Bool) (popenRaises : Bool) (s : FsState) : PollResult :=
  if s.stopExists then
    let s1 : FsState := { stopExists := false, rebootExists := s.rebootExists }
    let a1 := initiate_action debug false (some SemPath.stopFile) popenRaises
    let base : PollResult :=
      { fs := s1
        logs := { level := LogLevel.infoL, msg := shutdownRequestedMsg } :: a1.logs
        triggers := [SemPath.stopFile]
        spawned := a1.spawned
        exitCode := a1.exitCode }
    if a1.exitCode.isSome then base
    else if s1.rebootExists then
      let s2 : FsState := { stopExists := false, rebootExists := false }
      let a2 := initiate_action debug false (some SemPath.rebootFile) popenRaises
      { fs := s2
        logs := base.logs ++ { level := LogLevel.infoL, msg := rebootRequestedMsg } :: a2.logs
        triggers := base.triggers ++ [SemPath.rebootFile]
        spawned := base.spawned ++ a2.spawned
        exitCode := a2.exitCode }
    else base
  else if s.rebootExists then
    let s2 : FsState := { stopExists := s.stopExists, rebootExists := false }
    let a2 := initiate_action debug false (some SemPath.rebootFile) popenRaises
    { fs := s2
      logs := { level := LogLevel.infoL, msg := rebootRequestedMsg } :: a2.logs
      triggers := [SemPath.rebootFile]
      spawned := a2.spawned
      exitCode := a2.exitCode }
  else
    { fs := s, logs := [], triggers := [], spawned := [], exitCode := none }

/-- `Path.unlink()`: deletes the file, raising `FileNotFoundError`
(modelled as `Except.error ()`) when it does not exist. -/
def path_unlink (present : Bool) : Except Unit Bool :=
  if present then Except.ok false else Except.error ()

/-- Result of one guarded startup deletion in `run`. -/
structure UnlinkResult where
  present : Bool
  /-- whether an exception escaped the `try`/`except FileNotFoundError` -/
  errorEscaped : Bool
  logs : List LogEntry
deriving DecidableEq

/-- One iteration of the startup loop in `run`:
`try: file.unlink(); log except FileNotFoundError: pass`. -/
def startup_delete_one (present : Bool) : UnlinkResult :=
  match path_unlink present with
  | Except.ok after =>
    { present := after, errorEscaped := false
      logs := [{ level := LogLevel.infoL, msg := "Startup: Deleted." }] }
  | Except.error _ =>
    { present := present, errorEscaped := false, logs := [] }

/-- Result of the startup semaphore sweep in `run`. -/
structure CleanupResult where
  fs : FsState
  errorEscaped : Bool
  logs : List LogEntry
deriving DecidableEq

/-- The startup sweep of `run` over `(STOP_FILE_PATH, REBOOT_FILE_PATH)`. -/
def startup_cleanup (s : FsState) : CleanupResult :=
  let r1 := startup_delete_one s.stopExists
  let r2 := startup_delete_one s.rebootExists
  { fs := { stopExists := r1.present, rebootExists := r2.present }
    errorEscaped := r1.errorEscaped || r2.errorEscaped
    logs := r1.logs ++ r2.logs }

/-- Exception classes that `gpiozero.Button(pin)` can raise, as the watcher
distinguishes them.  Messages are dropped: `is_gpio_available` treats every
message the same way (its `"GPIO busy"` substring test returns `False` in
both branches). -/
inductive GpioErr
  | osError
  | runtimeError
  | keyError
  | lgpioError
  | otherError
deriving DecidableEq

/-- `wspr_watch.is_gpio_available(pin)`.

`pinErr` is `none` when constructing `gpiozero.Button(pin)` succeeds and
`some e` when it raises `e`; `lgpioLoaded` tells whether the optional
`lgpio` module was imported (when absent, an `lgpio.error` is not caught
and propagates). -/
def is_gpio_available (pinErr : Option GpioErr) (lgpioLoaded : Bool) :
    Except GpioErr Bool :=
  match pinErr with
  | none => Except.ok true
  | some GpioErr.osError => Except.ok false
  | some GpioErr.runtimeError => Except.ok false
  | some GpioErr.keyError => Except.ok false
  | some GpioErr.lgpioError =>
    if lgpioLoaded then Except.ok false else Except.error GpioErr.lgpioError
  | some GpioErr.otherError => Except.error GpioErr.otherError

/-- Warning of `start_gpio_watch` when the pin is busy. -/
def gpioBusyMsg (pin : Int) : String :=
  "GPIO " ++ toString pin ++ " is busy. Skipping GPIO monitoring."

/-- Info of `start_gpio_watch` on success. -/
def gpioMonitoringMsg (pin : Int) : String :=
  "Monitoring GPIO" ++ toString pin ++ " for shutdown signal."

/-- Observable outcome of `start_gpio_watch`. -/
structure GpioWatchResult where
  /-- value returned, when the function returns normally -/
  ret : Option Nat
  /-- exception propagating past the function, if any -/
  raised : Option GpioErr
  /-- whether `stop_button.when_pressed` was set to the shutdown callback -/
  callbackRegistered : Bool
  logs : List LogEntry
deriving DecidableEq

/-- `wspr_watch.start_gpio_watch(stop_pin, logger, debug)`.

The availability probe and the subsequent `gpiozero.Button` construction
see the same pin state `pinErr`, so a successful probe is followed by a
successful construction. -/
def start_gpio_watch (pinErr : Option GpioErr) (lgpioLoaded : Bool)
    (stop_pin : Int) : GpioWatchResult :=
  match is_gpio_available pinErr lgpioLoaded with
  | Except.error e =>
    -- the probe raised an unexpected exception before the try block
    { ret := none, raised := some e, callbackRegistered := false, logs := [] }
  | Except.ok false =>
    { ret := some 1, raised := none, callbackRegistered := false
      logs := [{ level := LogLevel.warningL, msg := gpioBusyMsg stop_pin }] }
  | Except.ok true =>
    { ret := some 0, raised := none, callbackRegistered := true
      logs := [{ level := LogLevel.infoL, msg := gpioMonitoringMsg stop_pin }] }

/-- Error logged by `handle_arguments` when not running as root. -/
def rootRequiredMsg : String :=
  "This script must be run as root. Exiting."

/-- Info logged when debug mode is active. -/
def debugEnabledMsg : String :=
  "Debug mode enabled. No actions will be taken."

/-- Info logged before monitoring starts. -/
def startingWatcherMsg : String :=
  "Starting shutdown watcher."

/-- Observable outcome of `wspr_watch.handle_arguments`. -/
structure HandleArgsResult where
  /-- value returned, when the function returns normally -/
  ret : Option Nat
  /-- exception propagating out of the function, if any -/
  raised : Option GpioErr
  gpio : Option GpioWatchResult
  fileWatchCalled : Bool
  logs : List LogEntry
  printedUsage : Bool
deriving DecidableEq

/-- Python truthiness of `args.pin` (`None` and `0` are falsy). -/
def pinTruthy : Option Int → Bool
  | none => false
  | some v => v != 0

/-- `wspr_watch.handle_arguments(logger, args)`.

`rootLogged` is the `logger.root_logged` attribute guarding the duplicate
root-error message; `pinErr`/`lgpioLoaded` describe the GPIO environment
as for `start_gpio_watch`. -/
def handle_arguments (watchFlag debugFlag isRoot rootLogged : Bool)
    (pin : Option Int) (pinErr : Option GpioErr) (lgpioLoaded : Bool) :
    HandleArgsResult :=
  if watchFlag then
    if !isRoot then
      { ret := some 1, raised := none, gpio := none, fileWatchCalled := false
        logs :=
          if rootLogged then []
          else [{ level := LogLevel.errorL, msg := rootRequiredMsg }]
        printedUsage := false }
    else
      let debugLogs : List LogEntry :=
        if debugFlag then [{ level := LogLevel.infoL, msg := debugEnabledMsg }] else []
      let startLogs : List LogEntry :=
        debugLogs ++ [{ level := LogLevel.infoL, msg := startingWatcherMsg }]
      if pinTruthy pin then
        let g := start_gpio_watch pinErr lgpioLoaded (pin.getD 0)
        match g.raised with
        | some e =>
          { ret := none, raised := some e, gpio := some g
            fileWatchCalled := false, logs := startLogs ++ g.logs
            printedUsage := false }
        | none =>
          -- the return value of start_gpio_watch is ignored;
          -- file_watch runs regardless
          { ret := some 0, raised := none, gpio := some g
            fileWatchCalled := true, logs := startLogs ++ g.logs
            printedUsage := false }
      else
        { ret := some 0, raised := none, gpio := none, fileWatchCalled := true
          logs := startLogs, printedUsage := false }
  else
    { ret := some 1, raised := none, gpio := none, fileWatchCalled := false
      logs := [], printedUsage := true }

/-- How the `try` block of `wspr_watch.run` ends. -/
inductive RunOutcome
  /-- `handle_arguments` returned `code`; `run` calls `sys.exit(code)` -/
  | completed (code : Nat)
  /-- a `RuntimeError`/`OSError`/`ValueError`/`SubprocessError` escaped -/
  | appError
  /-- a `KeyboardInterrupt` escaped -/
  | kbInterrupt
  /-- a `SystemExit` with this code was raised inside the try block
  (signal handler exit, or `sys.exit(1)` in `initiate_action`) -/
  | sysExitRaised (code : Int)
deriving DecidableEq

/-- The process exit code produced by the except clauses of
`wspr_watch.run` for each way the try block can end. -/
def run_exit_code : RunOutcome → Int
  | RunOutcome.completed code => (code : Int)
  | RunOutcome.appError => 1
  | RunOutcome.kbInterrupt => 130
  | RunOutcome.sysExitRaised code => code

end WsprWatch

namespace ShutdownWatch

/-- Outcome of `shutdown_watch.handle_arguments` (the legacy variant). -/
structure SwHandleResult where
  /-- argument of `sys.exit`, when the function exits the process -/
  exitCode : Option Int
  /-- whether `watch(args.debug, args.daemon)` was entered -/
  watchEntered : Bool
  printedUsage : Bool
  logs : List WsprWatch.LogEntry
deriving DecidableEq

/-- `shutdown_watch.handle_arguments()`: under `-w` a missing root
privilege runs `sys.exit(-1)`; otherwise `watch` is entered.  Without
`-w` a usage hint is printed and the function returns (exit status 0). -/
def handle_arguments (watchFlag debugFlag isRoot : Bool) : SwHandleResult :=
  if watchFlag then
    if !isRoot then
      { exitCode := some (-1), watchEntered := false, printedUsage := false
        logs := [] }
    else
      { exitCode := none, watchEntered := true, printedUsage := false
        logs :=
          (if debugFlag then
            [{ level := WsprWatch.LogLevel.infoL
               msg := WsprWatch.debugEnabledMsg }]
          else []) ++
          [{ level := WsprWatch.LogLevel.infoL
             msg := "Starting shutdown watcher..." }] }
  else
    { exitCode := none, watchEntered := false, printedUsage := true
      logs := [] }

end ShutdownWatch

namespace WsprWatch

/-- The signals `run` registers `handle_signal` for. -/
inductive Sig
  | sigint
  | sigterm
  | sighup
deriving DecidableEq

/-- `signal.Signals(signal_received).name`. -/
def sigName : Sig → String
  | Sig.sigint => "SIGINT"
  | Sig.sigterm => "SIGTERM"
  | Sig.sighup => "SIGHUP"

/-- Numeric signal values on Linux. -/
def sigNum : Sig → Nat
  | Sig.sigint => 2
  | Sig.sigterm => 15
  | Sig.sighup => 1

/-- Terminal settings: the `ECHOCTL` bit the watcher manipulates plus the
remaining (opaque) settings word. -/
structure Termios where
  echoctl : Bool
  rest : Nat
deriving DecidableEq

/-- `wspr_watch.disable_ctrlc_echo(logger)`: returns the saved original
settings (or `None` off a tty or on a `termios.error`) and the resulting
terminal state. -/
def disable_ctrlc_echo (isatty : Bool) (cur : Termios) (tcFails : Bool) :
    Option Termios × Termios :=
  if !isatty then (none, cur)
  else if tcFails then (none, cur)
  else (some cur, { cur with echoctl := false })

/-- `wspr_watch.restore_terminal(local_termios)`: restores the settings
when given some, otherwise does nothing. -/
def restore_terminal (local_termios : Option Termios) (cur : Termios) :
    Termios :=
  match local_termios with
  | some t => t
  | none => cur

/-- The receipt message of `handle_signal`. -/
def signalReceiptMsg (s : Sig) : String :=
  "Received signal " ++ sigName s ++ " (" ++ toString (sigNum s) ++
    "). Exiting gracefully."

/-- Observable outcome of a signal delivery. -/
structure SignalOutcome where
  logs : List LogEntry
  finalTermios : Termios
  exitCode : Nat
deriving DecidableEq

/-- Delivery of a registered signal while the watcher runs:
`handle_signal` logs the receipt, calls `restore_terminal()` with its
default `None` argument, and runs `sys.exit(0)`, which triggers the
`atexit`-registered `restore_terminal(original_termios)`. -/
def handle_signal (s : Sig) (cur : Termios) (original_termios : Option Termios) :
    SignalOutcome :=
  let logs := [{ level := LogLevel.infoL, msg := signalReceiptMsg s }]
  let t1 := restore_terminal none cur
  let t2 := restore_terminal original_termios t1
  { logs := logs, finalTermios := t2, exitCode := 0 }

/-- Kinds of output streams for logger handlers. -/
inductive StreamKind
  | stdoutS
  | stderrS
deriving DecidableEq

/-- `logging` level numbers. -/
def DEBUG_LVL : Nat := 10

/-- `logging.INFO`. -/
def INFO_LVL : Nat := 20

/-- `logging.ERROR`. -/
def ERROR_LVL : Nat := 40

/-- A configured `logging.StreamHandler`: target stream, threshold level,
and whether its formatter includes timestamps. -/
structure Handler where
  stream : StreamKind
  level : Nat
  timestamped : Bool
deriving DecidableEq

/-- State of the named `"shutdown_watch"` logger. -/
structure LoggerState where
  level : Nat
  propagate : Bool
  handlers : List Handler
deriving DecidableEq

/-- `logging.Logger.hasHandlers`: walks this logger, then (when
`propagate` is set) its ancestor, the root logger. -/
def hasHandlers (rootHandlers : List Handler) (l : LoggerState) : Bool :=
  if !l.handlers.isEmpty then true
  else if !l.propagate then false
  else !rootHandlers.isEmpty

/-- `wspr_watch.setup_logger(debug, date_time)` acting on the
`"shutdown_watch"` logger state.  `propagate` is set to `False` before the
`while logger.hasHandlers(): logger.handlers.clear()` loop, so the loop
condition only sees this logger and one clearing makes it false; the loop
is therefore a single conditional clear. -/
def setup_logger (debug date_time : Bool) (rootHandlers : List Handler)
    (l : LoggerState) : LoggerState :=
  let log_level := if debug then DEBUG_LVL else INFO_LVL
  let l1 : LoggerState := { l with level := log_level, propagate := false }
  let l2 : LoggerState :=
    if hasHandlers rootHandlers l1 then { l1 with handlers := [] } else l1
  let stdout_handler : Handler :=
    { stream := StreamKind.stdoutS
      level := if debug then DEBUG_LVL else INFO_LVL
      timestamped := date_time }
  let stderr_handler : Handler :=
    { stream := StreamKind.stderrS, level := ERROR_LVL, timestamped := date_time }
  { l2 with handlers := l2.handlers ++ [stdout_handler, stderr_handler] }

/-- The exception classes raised by `gpiozero.Button` that the watcher
catches and converts to a skip (the `except` clauses of
`is_gpio_available`; an `lgpio.error` is only caught when the optional
`lgpio` module was imported). -/
def busyCaught (lgpioLoaded : Bool) : GpioErr → Bool
  | GpioErr.osError => true
  | GpioErr.runtimeError => true
  | GpioErr.keyError => true
  | GpioErr.lgpioError => lgpioLoaded
  | GpioErr.otherError => false

end WsprWatch

namespace WsprWatch

/-- Helper: one `setup_logger` call leaves exactly the two fresh handlers
and propagation disabled, whatever the starting state. -/
theorem setup_logger_spec (d dt : Bool) (root : List Handler) (l : LoggerState) :
    (setup_logger d dt root l).handlers =
      [{ stream := StreamKind.stdoutS
         level := if d then DEBUG_LVL else INFO_LVL
         timestamped := dt },
       { stream := StreamKind.stderrS, level := ERROR_LVL, timestamped := dt }] ∧
    (setup_logger d dt root l).propagate = false := by
  rcases l with ⟨lvl, prop, hs⟩
  cases hs <;> simp [setup_logger, hasHandlers]

/-- C1: a GPIO press calls `initiate_action` with `file_path = None`, so in
non-debug mode the command-selection step takes its unknown-trigger branch:
no command string is selected, nothing is spawned, and the function logs
`Actions undefined` and returns 0 — contrary to the claim (and to the
docstring of `initiate_action`) that the press selects `shutdown -h now`. -/
theorem gpio_press_selects_no_command :
    (initiate_action false true none false).commandSelected = none ∧
    (initiate_action false true none false).spawned = [] ∧
    (initiate_action false true none false).logs =
      [{ level := LogLevel.infoL, msg := gpioInitiatedMsg },
       { level := LogLevel.debugL, msg := unknownTriggerMsg }] ∧
    (initiate_action false true none false).ret = some 0 :=
  ⟨rfl, rfl, rfl, rfl⟩

/-- C2: with the debug flag set, `initiate_action` only logs the intended
action at debug level and returns 0: no subprocess, no filesystem
mutation, no callback change, no `sys.exit`; a debug-mode poll iteration
spawns nothing either. -/
theorem debug_mode_takes_no_action (hasBtn : Bool) (fp : Option SemPath)
    (pf : Bool) (s : FsState) :
    (initiate_action true hasBtn fp pf).spawned = [] ∧
    (initiate_action true hasBtn fp pf).fsDeletes = [] ∧
    (initiate_action true hasBtn fp pf).callbackDisabled = false ∧
    (initiate_action true hasBtn fp pf).exitCode = none ∧
    (initiate_action true hasBtn fp pf).ret = some 0 ∧
    (initiate_action true hasBtn fp pf).logs =
      [{ level := LogLevel.debugL, msg := debugPreventedMsg fp }] ∧
    (file_watch_iter true pf s).spawned = [] := by
  refine ⟨rfl, rfl, rfl, rfl, rfl, rfl, ?_⟩
  rcases s with ⟨a, b⟩
  cases a <;> cases b <;> rfl

/-- C3: when the pin is claimed by another consumer and the raised error is
of a class the watcher catches, `start_gpio_watch` returns 1 with a busy
warning instead of raising, and `handle_arguments` still reaches
`file_watch`, returning 0. -/
theorem gpio_busy_recovered (e : GpioErr) (lg db rl : Bool) (p : Int)
    (hcaught : busyCaught lg e = true) (hp : p ≠ 0) :
    (start_gpio_watch (some e) lg p).ret = some 1 ∧
    (start_gpio_watch (some e) lg p).raised = none ∧
    (start_gpio_watch (some e) lg p).logs =
      [{ level := LogLevel.warningL, msg := gpioBusyMsg p }] ∧
    (handle_arguments true db true rl (some p) (some e) lg).fileWatchCalled
      = true ∧
    (handle_arguments true db true rl (some p) (some e) lg).ret = some 0 := by
  cases e <;>
    simp_all [busyCaught, start_gpio_watch, is_gpio_available,
      handle_arguments, pinTruthy]

/-- C3 witness: GPIO 19 busy with a caught `RuntimeError`. -/
theorem gpio_busy_recovered_witness :
    busyCaught true GpioErr.runtimeError = true ∧ (19 : Int) ≠ 0 ∧
    ((start_gpio_watch (some GpioErr.runtimeError) true 19).ret = some 1 ∧
     (start_gpio_watch (some GpioErr.runtimeError) true 19).raised = none ∧
     (start_gpio_watch (some GpioErr.runtimeError) true 19).logs =
       [{ level := LogLevel.warningL, msg := gpioBusyMsg 19 }] ∧
     (handle_arguments true false true false (some 19)
        (some GpioErr.runtimeError) true).fileWatchCalled = true ∧
     (handle_arguments true false true false (some 19)
        (some GpioErr.runtimeError) true).ret = some 0) :=
  ⟨rfl, by decide,
    gpio_busy_recovered GpioErr.runtimeError true false false 19 rfl
      (by decide)⟩

/-- C4: when neither semaphore exists, a poll iteration consumes no trigger
and leaves the state unchanged, so a second poll again finds no trigger;
and the guarded startup deletion of a missing semaphore lets no error
escape. -/
theorem file_poll_idempotent_no_semaphore (debug pf : Bool) (s : FsState)
    (h1 : s.stopExists = false) (h2 : s.rebootExists = false) :
    (file_watch_iter debug pf s).triggers = [] ∧
    (file_watch_iter debug pf s).exitCode = none ∧
    (file_watch_iter debug pf s).fs = s ∧
    (file_watch_iter debug pf (file_watch_iter debug pf s).fs).triggers
      = [] ∧
    (file_watch_iter debug pf (file_watch_iter debug pf s).fs).exitCode
      = none ∧
    (startup_delete_one false).errorEscaped = false := by
  simp [file_watch_iter, h1, h2, startup_delete_one, path_unlink]

/-- C4 witness: the empty filesystem state. -/
theorem file_poll_idempotent_no_semaphore_witness :
    ({ stopExists := false, rebootExists := false } : FsState).stopExists
      = false ∧
    ({ stopExists := false, rebootExists := false } : FsState).rebootExists
      = false ∧
    ((file_watch_iter false false
        { stopExists := false, rebootExists := false }).triggers = [] ∧
     (file_watch_iter false false
        { stopExists := false, rebootExists := false }).exitCode = none ∧
     (file_watch_iter false false
        { stopExists := false, rebootExists := false }).fs =
       { stopExists := false, rebootExists := false } ∧
     (file_watch_iter false false
        (file_watch_iter false false
          { stopExists := false, rebootExists := false }).fs).triggers
       = [] ∧
     (file_watch_iter false false
        (file_watch_iter false false
          { stopExists := false, rebootExists := false }).fs).exitCode
       = none ∧
     (startup_delete_one false).errorEscaped = false) :=
  ⟨rfl, rfl,
    file_poll_idempotent_no_semaphore false false
      { stopExists := false, rebootExists := false } rfl rfl⟩

/-- C5 counterexample: the legacy `shutdown_watch` variant, cited by the
claim, exits with `sys.exit(-1)` when root privilege is missing, not 1. -/
theorem legacy_root_exit_is_minus_one :
    (ShutdownWatch.handle_arguments true false false).exitCode = some (-1) ∧
    (ShutdownWatch.handle_arguments true false false).exitCode ≠ some 1 :=
  ⟨rfl, by decide⟩

/-- C5 amended: in `wspr_watch`, `handle_arguments` yields 1 without root
or without `-w` and 0 on success, and `run` exits with that code, with 1
on a fatal application error, 130 on keyboard interrupt, and the code of
any inner `SystemExit`; the legacy `shutdown_watch` variant instead calls
`sys.exit(-1)` on missing root privilege. -/
theorem watcher_exit_codes (c : Int) (db lg rl : Bool) (pe : Option GpioErr) :
    (handle_arguments true db false rl none pe lg).ret = some 1 ∧
    (handle_arguments false db true rl none pe lg).ret = some 1 ∧
    (handle_arguments true db true rl none pe lg).ret = some 0 ∧
    run_exit_code (RunOutcome.completed 0) = 0 ∧
    run_exit_code (RunOutcome.completed 1) = 1 ∧
    run_exit_code RunOutcome.appError = 1 ∧
    run_exit_code RunOutcome.kbInterrupt = 130 ∧
    run_exit_code (RunOutcome.sysExitRaised c) = c ∧
    (ShutdownWatch.handle_arguments true db false).exitCode = some (-1) :=
  ⟨rfl, rfl, rfl, rfl, rfl, rfl, rfl, rfl, rfl⟩

/-- C6: for each of SIGINT, SIGTERM and SIGHUP, the registered handler path
logs the receipt, ends with the terminal settings saved at startup
restored (via the `atexit` hook its `sys.exit(0)` triggers), and exits
with code 0. -/
theorem signal_clean_exit (s : Sig) (t0 : Termios) :
    (handle_signal s (disable_ctrlc_echo true t0 false).2
        (disable_ctrlc_echo true t0 false).1).logs =
      [{ level := LogLevel.infoL, msg := signalReceiptMsg s }] ∧
    (handle_signal s (disable_ctrlc_echo true t0 false).2
        (disable_ctrlc_echo true t0 false).1).finalTermios = t0 ∧
    (handle_signal s (disable_ctrlc_echo true t0 false).2
        (disable_ctrlc_echo true t0 false).1).exitCode = 0 :=
  ⟨rfl, rfl, rfl⟩

/-- C7 counterexample: on a GPIO press in debug mode, `initiate_action`
returns before the disabling statement, leaving `when_pressed` set. -/
theorem debug_press_leaves_callback_enabled :
    (initiate_action true true none false).callbackDisabled = false ∧
    (initiate_action true true none false).ret = some 0 :=
  ⟨rfl, rfl⟩

/-- C7 amended: in non-debug mode the first press disables the
`when_pressed` callback before anything else can fire it again; in debug
mode `initiate_action` returns early and the callback stays registered. -/
theorem callback_disabled_only_when_not_debug (fp : Option SemPath)
    (pf : Bool) :
    (initiate_action false true fp pf).callbackDisabled = true ∧
    (initiate_action true true fp pf).callbackDisabled = false := by
  refine ⟨?_, rfl⟩
  rcases fp with _ | p
  · rfl
  · cases p <;> cases pf <;> rfl

/-- C8: the startup sweep of `run` deletes both semaphore paths, treats a
missing file as a non-error, and leaves a state in which the first poll
iteration finds no trigger, so pre-existing semaphores never fire. -/
theorem startup_clears_stale_semaphores (s : FsState) (debug pf : Bool) :
    (startup_cleanup s).fs.stopExists = false ∧
    (startup_cleanup s).fs.rebootExists = false ∧
    (startup_cleanup s).errorEscaped = false ∧
    (file_watch_iter debug pf (startup_cleanup s).fs).triggers = [] ∧
    (file_watch_iter debug pf (startup_cleanup s).fs).spawned = [] := by
  rcases s with ⟨a, b⟩
  cases a <;> cases b <;> exact ⟨rfl, rfl, rfl, rfl, rfl⟩

/-- C9: in non-debug mode with neither a file path nor a button,
`initiate_action` logs one warning, selects no command, spawns nothing,
mutates nothing, and returns 0 without exiting. -/
theorem no_trigger_is_noop (pf : Bool) :
    (initiate_action false false none pf).logs =
      [{ level := LogLevel.warningL, msg := noTriggerMsg }] ∧
    (initiate_action false false none pf).spawned = [] ∧
    (initiate_action false false none pf).callbackDisabled = false ∧
    (initiate_action false false none pf).fsDeletes = [] ∧
    (initiate_action false false none pf).commandSelected = none ∧
    (initiate_action false false none pf).ret = some 0 ∧
    (initiate_action false false none pf).exitCode = none :=
  ⟨rfl, rfl, rfl, rfl, rfl, rfl, rfl⟩

/-- C10: after any number of successive `setup_logger` calls with any
arguments (at least one call), the `shutdown_watch` logger holds exactly
two handlers — stdout at DEBUG or INFO per the last debug flag, stderr at
ERROR — and propagation is disabled. -/
theorem setup_logger_always_two_handlers (l0 : LoggerState)
    (root : List Handler) (prior : List (Bool × Bool)) (d dt : Bool) :
    (setup_logger d dt root
        (prior.foldl (fun l a => setup_logger a.1 a.2 root l) l0)).handlers =
      [{ stream := StreamKind.stdoutS
         level := if d then DEBUG_LVL else INFO_LVL
         timestamped := dt },
       { stream := StreamKind.stderrS, level := ERROR_LVL, timestamped := dt }]
      ∧
    (setup_logger d dt root
        (prior.foldl (fun l a => setup_logger a.1 a.2 root l) l0)).propagate
      = false :=
  setup_logger_spec d dt root _

end WsprWatch
